import Mathlib

/-
Verification development for the sftp plugin (flexget/components/ftp/sftp.py).
The Python module is shallowly embedded below: pure path and string helpers are
translated directly, stateful code is translated into explicit state passing
over model records (remote file system, local file system, per-entry outcomes),
and exceptions are translated into explicit error values of type PyErr.
External collaborators (the pysftp session object, urllib parsing, template
rendering) are modelled at the boundary described in the specification.
-/

set_option autoImplicit false

namespace SftpSpec

/-! ## Basic list and character helpers -/

/-- Concatenation of a list of lists, used in place of stdlib flatten/join so
that its equations are fully under our control. -/
def flatList {α : Type} : List (List α) → List α
  | [] => []
  | l :: ls => l ++ flatList ls

/-- Sum of a list of integers. -/
def intSum : List Int → Int
  | [] => 0
  | x :: xs => x + intSum xs

/-- Does the second list start with the first list? -/
def startsWithL : List Char → List Char → Bool
  | [], _ => true
  | _ :: _, [] => false
  | p :: ps, c :: cs => p == c && startsWithL ps cs

/-- Split a character list at the first occurrence of the (nonempty) pattern:
returns the part before the pattern and the part after it. -/
def breakOnL (pat : List Char) : List Char → Option (List Char × List Char)
  | [] => none
  | c :: cs =>
    if startsWithL pat (c :: cs) then some ([], (c :: cs).drop pat.length)
    else
      match breakOnL pat cs with
      | some (a, b) => some (c :: a, b)
      | none => none

/-- Split a character list at the last occurrence of the given character. -/
def splitLastChar (ch : Char) (l : List Char) : Option (List Char × List Char) :=
  match breakOnL [ch] l.reverse with
  | some (tailRev, initRev) => some (initRev.reverse, tailRev.reverse)
  | none => none

/-- Drop trailing occurrences of a character. -/
def stripTrailing (ch : Char) (l : List Char) : List Char :=
  (l.reverse.dropWhile (fun c => c == ch)).reverse

/-! ## posixpath model (remote path style; the local path style of the target
platform is POSIX as well, so the same functions model `os.path`). -/

/-- Index just after the last slash of the list, as in posixpath.split. -/
def lastSlashCut : List Char → Nat → Nat → Nat
  | [], _, acc => acc
  | c :: rest, i, acc => lastSlashCut rest (i + 1) (if c == '/' then i + 1 else acc)

/-- posixpath.split: split a pathname into (head, tail) where tail is the part
after the final slash; the head keeps trailing slashes only when it consists
solely of slashes. -/
def posix_split (p : String) : String × String :=
  let i := lastSlashCut p.data 0 0
  let head := p.data.take i
  let tail := p.data.drop i
  let head2 := if head.all (fun c => c == '/') then head else stripTrailing '/' head
  (⟨head2⟩, ⟨tail⟩)

/-- posixpath.dirname. -/
def posix_dirname (p : String) : String := (posix_split p).1

/-- posixpath.basename. -/
def posix_basename (p : String) : String := (posix_split p).2

/-- posixpath.join restricted to two components, as used by the source. -/
def posix_join (a b : String) : String :=
  if startsWithL ['/'] b.data then b
  else if a.data = [] || (a.data.getLast? == some '/') then a ++ b
  else a ++ "/" ++ b

/-- posixpath.normpath: collapse empty and dot components and resolve dot-dot
components, preserving the special case of exactly two leading slashes. -/
def posix_normpath (p : String) : String :=
  if p = "" then "." else
  let slashes := startsWithL ['/'] p.data
  let dbl := startsWithL ['/', '/'] p.data && !(startsWithL ['/', '/', '/'] p.data)
  let comps := (p.data.splitOn '/').map (fun l => (⟨l⟩ : String))
  let newComps := comps.foldl
    (fun acc c =>
      if c = "" || c = "." then acc
      else if c != ".." || (!slashes && acc = []) || (acc.getLast? == some "..") then
        acc ++ [c]
      else acc.dropLast)
    []
  let body := String.intercalate "/" newComps
  let res := (if dbl then "//" else if slashes then "/" else "") ++ body
  if res = "" then "." else res

/-- Local path style join: os.path.join on the POSIX platforms this plugin
targets, hence identical to the remote join. -/
def localpath_join (a b : String) : String := posix_join a b

/-- Local path style dirname. -/
def localpath_dirname (p : String) : String := posix_dirname p

/-- Local path style basename. -/
def localpath_basename (p : String) : String := posix_basename p

/-! ## Connection retry model (sftp_connect, lines 42-76) -/

/-- Source constant CONNECT_TRIES. -/
def CONNECT_TRIES : Nat := 3

/-- Source constant RETRY_INTERVAL. -/
def RETRY_INTERVAL : Nat := 15

/-- Source constant RETRY_STEP. -/
def RETRY_STEP : Nat := 5

/-- Source constant SOCKET_TIMEOUT (applied to the session once opened). -/
def SOCKET_TIMEOUT : Nat := 15

/-- Trace of one call to sftp_connect: the sleeps performed between attempts,
the number of underlying open attempts made, and whether a session resulted. -/
structure ConnectTrace where
  waits : List Nat
  attempts : Nat
  ok : Bool
deriving DecidableEq, Repr

/-- The retry loop of sftp_connect. `attempt i` tells whether the i-th
underlying open succeeds. Mirrors the source: on failure, if the remaining
`tries` counter is zero the exception is re-raised; otherwise the loop sleeps
for the current interval, decrements `tries`, grows the interval by RETRY_STEP
and retries. -/
def connectLoop (attempt : Nat → Bool) (i : Nat) (interval : Nat) : Nat → ConnectTrace
  | 0 => if attempt i then ⟨[], 1, true⟩ else ⟨[], 1, false⟩
  | t + 1 =>
    if attempt i then ⟨[], 1, true⟩
    else
      let r := connectLoop attempt (i + 1) (interval + RETRY_STEP) t
      ⟨interval :: r.waits, r.attempts + 1, r.ok⟩

/-- sftp_connect as a trace: starts with tries = CONNECT_TRIES and
interval = RETRY_INTERVAL. -/
def sftp_connect_trace (attempt : Nat → Bool) : ConnectTrace :=
  connectLoop attempt 0 RETRY_INTERVAL CONNECT_TRIES

/-! ## Percent encoding and decoding (urllib.parse.quote and unquote),
modelled for ASCII text. -/

/-- Hexadecimal digit character for a value below 16; uppercase as produced
by urllib.parse.quote. -/
def hexDigit (n : Nat) : Char :=
  if n < 10 then Char.ofNat (48 + n) else Char.ofNat (55 + n)

/-- Value of a hexadecimal digit character, if it is one. -/
def hexVal (c : Char) : Option Nat :=
  if c.toNat ≥ 48 && c.toNat ≤ 57 then some (c.toNat - 48)
  else if c.toNat ≥ 65 && c.toNat ≤ 70 then some (c.toNat - 55)
  else if c.toNat ≥ 97 && c.toNat ≤ 102 then some (c.toNat - 87)
  else none

/-- Characters urllib.parse.quote leaves unescaped by default (unreserved
characters plus the slash). -/
def isUrlSafe (c : Char) : Bool :=
  c.isAlphanum || c == '_' || c == '.' || c == '-' || c == '~' || c == '/'

/-- Percent-encode one ASCII character. -/
def quoteChar (c : Char) : List Char :=
  if isUrlSafe c then [c]
  else ['%', hexDigit (c.toNat / 16 % 16), hexDigit (c.toNat % 16)]

/-- urllib.parse.quote on ASCII text. -/
def quote (s : String) : String := ⟨flatList (s.data.map quoteChar)⟩

/-- Core of unquote: decode percent escapes, leaving invalid escapes as-is.
The fuel argument only bounds the recursion; a fuel of the length of the list
is never exhausted, since every step consumes at least one character. -/
def unquoteFuel : Nat → List Char → List Char
  | 0, l => l
  | _ + 1, [] => []
  | fuel + 1, c :: rest =>
    if c = '%' then
      match rest with
      | a :: b :: rest2 =>
        match hexVal a, hexVal b with
        | some x, some y => Char.ofNat (16 * x + y) :: unquoteFuel fuel rest2
        | _, _ => c :: unquoteFuel fuel rest
      | _ => c :: unquoteFuel fuel rest
    else c :: unquoteFuel fuel rest

/-- urllib.parse.unquote on ASCII text. -/
def unquote (s : String) : String := ⟨unquoteFuel s.data.length s.data⟩

/-! ## URL parsing (urllib.parse.urlparse) for the URL shape of the spec:
scheme://[username[:password]@]host[:port]/path -/

/-- The fields of urlparse consumed by the source. -/
structure ParsedUrl where
  scheme : String
  username : Option String
  password : Option String
  hostname : Option String
  port : Option Nat
  path : String
deriving DecidableEq, Repr

/-- Is this a valid scheme per RFC: a letter followed by letters, digits,
plus, minus or dot? urlparse refuses to split off an invalid scheme. -/
def schemeOkL (l : List Char) : Bool :=
  match l with
  | [] => false
  | c :: cs => c.isAlpha && cs.all (fun d => d.isAlphanum || d == '+' || d == '-' || d == '.')

/-- Parse the digits of a port, as urlparse does when the port is well formed. -/
def portOfL (l : List Char) : Option Nat :=
  if l ≠ [] && l.all Char.isDigit then
    some (l.foldl (fun acc c => acc * 10 + (c.toNat - 48)) 0)
  else none

/-- urllib.parse.urlparse restricted to the URL shape used by this plugin.
A URL without a recognizable scheme part keeps everything in `path`. -/
def urlparse (url : String) : ParsedUrl :=
  match breakOnL [':', '/', '/'] url.data with
  | none => ⟨"", none, none, none, none, url⟩
  | some (sch, rest) =>
    if schemeOkL sch then
      let scheme : String := ⟨sch.map Char.toLower⟩
      let (netloc, path) :=
        match breakOnL ['/'] rest with
        | some (n, after) => (n, '/' :: after)
        | none => (rest, [])
      let (userinfo, hostport) :=
        match splitLastChar '@' netloc with
        | some (u, h) => (some u, h)
        | none => (none, netloc)
      let (username, password) :=
        match userinfo with
        | none => (none, none)
        | some u =>
          match breakOnL [':'] u with
          | some (a, b) => (some (⟨a⟩ : String), some (⟨b⟩ : String))
          | none => (some (⟨u⟩ : String), none)
      let (hostL, port) :=
        match splitLastChar ':' hostport with
        | some (h, p) =>
          match portOfL p with
          | some n => (h, some n)
          | none => (hostport, none)
        | none => (hostport, none)
      let hostname := if hostL = [] then none else some (⟨hostL.map Char.toLower⟩ : String)
      ⟨scheme, username, password, hostname, port, ⟨path⟩⟩
    else ⟨"", none, none, none, none, url⟩

/-! ## Python percent formatting (for the message strings built with the
modulo operator). Only the string conversion %s occurs in the formats the
source uses. A mismatch between the number of placeholders and the number of
arguments raises TypeError. -/

/-- Errors of the embedded Python fragments, by kind. -/
inductive PyErr where
  | ioErr (msg : String)
  | typeErr
  | generic (msg : String)
  | plugin (msg : String)
  | fuelEx
deriving DecidableEq, Repr

/-- Human-readable form of an error, as used when the source interpolates the
caught exception into a message. -/
def errStr : PyErr → String
  | .ioErr m => m
  | .typeErr => "TypeError"
  | .generic m => m
  | .plugin m => m
  | .fuelEx => "recursion limit"

/-- Substitute the %s placeholders of a format with the arguments, failing
when the counts disagree (in either direction), like the Python modulo
operator on strings. -/
def pyFmtS (fuel : Nat) (fmt : List Char) (args : List String) : Option (List Char) :=
  match fuel with
  | 0 => none
  | fuel + 1 =>
    match fmt with
    | [] => match args with | [] => some [] | _ :: _ => none
    | c :: rest =>
      if c = '%' then
        match rest with
        | d :: rest2 =>
          if d = 's' then
            match args with
            | a :: as2 => (pyFmtS fuel rest2 as2).map (fun r => a.data ++ r)
            | [] => none
          else (pyFmtS fuel rest args).map (fun r => c :: r)
        | [] => (pyFmtS fuel rest args).map (fun r => c :: r)
      else (pyFmtS fuel rest args).map (fun r => c :: r)

/-- The Python string modulo operator. The fuel of the length of the format
is never exhausted. -/
def pyMod (fmt : String) (args : List String) : Except PyErr String :=
  match pyFmtS (fmt.data.length + 1) fmt.data args with
  | some r => .ok ⟨r⟩
  | none => .error .typeErr

/-! ## Connection identity (the ConnectionConfig namedtuple) and entries -/

/-- The ConnectionConfig namedtuple; structural equality over all fields, as
for the Python namedtuple. -/
structure ConnectionConfig where
  host : Option String
  port : Nat
  username : Option String
  password : Option String
  private_key : Option String
  private_key_pass : Option String
deriving DecidableEq, Repr

/-- The fields of a task entry consumed by this plugin. -/
structure Entry where
  url : String
  location : String
  private_key : Option String
  private_key_pass : Option String
deriving DecidableEq, Repr

/-- Python falsiness of an optional string: None and the empty string give
none (the source writes `or None`). -/
def orNone : Option String → Option String
  | some "" => none
  | x => x

/-- SftpDownload.get_sftp_config (lines 318-341): parse the entry URL and
return a hashable config, or None when the scheme is not sftp. -/
def get_sftp_config (e : Entry) : Option ConnectionConfig :=
  let parsed := urlparse e.url
  let host := parsed.hostname
  let username := orNone parsed.username
  let password := orNone parsed.password
  let port := match parsed.port with
    | some p => if p = 0 then 22 else p
    | none => 22
  if parsed.scheme = "sftp" then
    some ⟨host, port, username, password, e.private_key, e.private_key_pass⟩
  else none

/-! ## itertools.groupby: stable grouping of consecutive items by key -/

/-- itertools.groupby with a key function: groups only consecutive items whose
keys are equal, preserving the input order. -/
def groupByKey {α β : Type} [DecidableEq β] (key : α → β) : List α → List (β × List α)
  | [] => []
  | x :: xs =>
    match groupByKey key xs with
    | [] => [(key x, [x])]
    | (k, g) :: rest =>
      if key x = k then (k, x :: g) :: rest
      else (key x, [x]) :: (k, g) :: rest

/-! ## Remote session model. Modelled from the spec: the Session capability of
section 6 (an opaque, already-authenticated pysftp connection) is represented
by the remote namespace it exposes, a current working directory, and fault
oracles naming the paths at which each operation raises. -/

/-- The remote file system and fault oracles of one session. Paths in the
node lists are absolute. The second components of the node lists are the
lstat sizes of the nodes (directories and unknown nodes report lstat sizes
too). -/
structure Sftp where
  cwd : String
  rfiles : List (String × Int)
  rdirs : List (String × Int)
  runk : List (String × Int)
  removedF : List String
  removedD : List String
  getFailAt : List String
  getFailMidAt : List String
  removeFailAt : List String
  putFailIOAt : List String
  putFailGenAt : List String
  mkdirFailAt : List String
  lstatFailAt : List String
  normFailAt : List (String × Bool)
deriving DecidableEq, Repr

/-- Resolve a possibly relative remote path against the session cwd. -/
def Sftp.resolve (s : Sftp) (p : String) : String :=
  if startsWithL ['/'] p.data then p else posix_join s.cwd p

/-- Does a live file node sit at this absolute path? -/
def Sftp.hasFile (s : Sftp) (a : String) : Bool :=
  s.rfiles.any (fun pr => pr.1 == a) && !(s.removedF.contains a)

/-- Does a live directory node sit at this absolute path? -/
def Sftp.hasDir (s : Sftp) (a : String) : Bool :=
  s.rdirs.any (fun pr => pr.1 == a) && !(s.removedD.contains a)

/-- Does an unclassifiable node sit at this absolute path? -/
def Sftp.hasUnk (s : Sftp) (a : String) : Bool :=
  s.runk.any (fun pr => pr.1 == a)

/-- pysftp lexists. -/
def Sftp.lexists (s : Sftp) (p : String) : Bool :=
  s.hasFile (s.resolve p) || s.hasDir (s.resolve p) || s.hasUnk (s.resolve p)

/-- pysftp isfile. -/
def Sftp.isfile (s : Sftp) (p : String) : Bool := s.hasFile (s.resolve p)

/-- pysftp isdir. -/
def Sftp.isdir (s : Sftp) (p : String) : Bool := s.hasDir (s.resolve p)

/-- pysftp cwd (change directory). -/
def Sftp.chdir (s : Sftp) (p : String) : Sftp := { s with cwd := s.resolve p }

/-- All live absolute paths of the remote namespace. -/
def Sftp.livePaths (s : Sftp) : List String :=
  ((s.rfiles.map Prod.fst).filter (fun p => !(s.removedF.contains p)))
    ++ ((s.rdirs.map Prod.fst).filter (fun p => !(s.removedD.contains p)))
    ++ s.runk.map Prod.fst

/-- The name under which `child` is a direct child of the absolute directory
path `parent`, if it is one. -/
def childNameOf (parent child : String) : Option String :=
  let pfx := (if parent.data.getLast? == some '/' then parent.data else parent.data ++ ['/'])
  if startsWithL pfx child.data then
    let rest := child.data.drop pfx.length
    if rest ≠ [] && !(rest.contains '/') then some ⟨rest⟩ else none
  else none

/-- The names returned by listdir for a remote directory. -/
def Sftp.childNames (s : Sftp) (p : String) : List String :=
  s.livePaths.filterMap (childNameOf (s.resolve p))

/-- lstat st_size of a node; raises when the node is absent or when the lstat
fault oracle names the path. -/
def Sftp.lstatSize (s : Sftp) (p : String) : Except PyErr Int :=
  let a := s.resolve p
  if s.lstatFailAt.contains a then .error (.ioErr ("lstat failed: " ++ a))
  else if s.hasFile a then .ok (((s.rfiles.lookup a).getD 0))
  else if s.hasDir a then .ok (((s.rdirs.lookup a).getD 0))
  else if s.hasUnk a then .ok (((s.runk.lookup a).getD 0))
  else .error (.ioErr ("No such file or directory: " ++ a))

/-- Mark a remote file as removed. -/
def Sftp.removeFilePath (s : Sftp) (a : String) : Sftp :=
  { s with removedF := a :: s.removedF }

/-- Mark a remote directory as removed. -/
def Sftp.removeDirPath (s : Sftp) (a : String) : Sftp :=
  { s with removedD := a :: s.removedD }

/-- Create a remote directory (sftp.makedirs, modelled as creating the final
component; ancestor bookkeeping is not observable to the claims settled
here). -/
def Sftp.addDirPath (s : Sftp) (a : String) : Sftp :=
  { s with rdirs := (a, 0) :: s.rdirs, removedD := s.removedD.filter (fun q => !(q == a)) }

/-- Create a remote file of unknown size (sftp.put). -/
def Sftp.addFilePath (s : Sftp) (a : String) : Sftp :=
  { s with rfiles := (a, 0) :: s.rfiles, removedF := s.removedF.filter (fun q => !(q == a)) }

/-! ## Local file system model -/

/-- The local file system visible to the plugin: which paths are existing
files and which are existing directories. -/
structure LocalFS where
  files : List String
  dirs : List String
deriving DecidableEq, Repr

/-- os.path.exists. -/
def LocalFS.localExists (l : LocalFS) (p : String) : Bool :=
  l.files.contains p || l.dirs.contains p

/-- Create a local file (the destination of a completed or half-completed
sftp.get). -/
def LocalFS.addFile (l : LocalFS) (p : String) : LocalFS :=
  { l with files := p :: l.files }

/-- os.remove of a local file. -/
def LocalFS.removeFile (l : LocalFS) (p : String) : LocalFS :=
  { l with files := l.files.filter (fun q => !(q == p)) }

/-- os.makedirs (modelled as creating the named directory). -/
def LocalFS.addDir (l : LocalFS) (p : String) : LocalFS :=
  { l with dirs := p :: l.dirs }

/-! ## TreeWalker. Modelled from the spec: walk (section 4.3 together with the
section 8 scenarios) lists the children of the root directory and dispatches
each child to the file, directory or unknown callback, descending into child
directories (directory callback first) when `recurse` is set; a missing or
non-directory root raises an IOError-kind PathNotFoundError, and an error
raised by a callback propagates out of the walk. Fuel bounds the recursion;
every caller passes more fuel than the walk can consume. -/

mutual

/-- One walk step: handle the subtree rooted at `rpath` (which must be a
directory). -/
def walkOne {σ : Type} (getS : σ → Sftp)
    (fcb dcb ucb : String → σ → σ × Option PyErr) (recurse : Bool)
    (fuel : Nat) (rpath : String) (st : σ) : σ × Option PyErr :=
  match fuel with
  | 0 => (st, some .fuelEx)
  | f + 1 =>
    if (getS st).isdir rpath then
      walkKids getS fcb dcb ucb recurse f rpath ((getS st).childNames rpath) st
    else (st, some (.ioErr ("listdir failed: " ++ rpath)))

/-- Dispatch the named children of `rpath` in order, stopping at the first
error. -/
def walkKids {σ : Type} (getS : σ → Sftp)
    (fcb dcb ucb : String → σ → σ × Option PyErr) (recurse : Bool)
    (fuel : Nat) (rpath : String) (names : List String) (st : σ) : σ × Option PyErr :=
  match fuel with
  | 0 => (st, some .fuelEx)
  | f + 1 =>
    match names with
    | [] => (st, none)
    | n :: ns =>
      let pathname := posix_join rpath n
      let s := getS st
      let a := s.resolve pathname
      if s.hasDir a then
        match dcb pathname st with
        | (st1, some e) => (st1, some e)
        | (st1, none) =>
          if recurse then
            match walkOne getS fcb dcb ucb recurse f pathname st1 with
            | (st2, some e) => (st2, some e)
            | (st2, none) => walkKids getS fcb dcb ucb recurse f rpath ns st2
          else walkKids getS fcb dcb ucb recurse f rpath ns st1
      else if s.hasFile a then
        match fcb pathname st with
        | (st1, some e) => (st1, some e)
        | (st1, none) => walkKids getS fcb dcb ucb recurse f rpath ns st1
      else
        match ucb pathname st with
        | (st1, some e) => (st1, some e)
        | (st1, none) => walkKids getS fcb dcb ucb recurse f rpath ns st1

end

/-- Fuel that no walk over this session can exhaust. -/
def walkFuel (s : Sftp) : Nat :=
  2 * (s.rfiles.length + s.rdirs.length + s.runk.length) + 4

/-! ## SftpDownload (lines 287-487) -/

/-- The sftp_download configuration. -/
structure DownloadConfig where
  to_path : String
  recursive : Bool
  delete_origin : Bool
deriving DecidableEq, Repr

/-- The state threaded through a download run: the remote session, the local
file system, and the number of completed byte copies. -/
structure DState where
  s : Sftp
  l : LocalFS
  copies : Nat
deriving DecidableEq, Repr

/-- The local destination path computed by download_file: the local-style join
of the destination root with the local-style rejoin of the split remote
path. -/
def dl_destination (path dest : String) : String :=
  localpath_join dest (localpath_join (posix_split path).1 (posix_split path).2)

/-- SftpDownload.remove_dir (lines 394-403): remove a remote directory when it
exists and is empty; a failure of the removal itself is caught and logged. -/
def remove_dir (st : DState) (path : String) : DState :=
  if st.s.lexists path && st.s.childNames path = [] then
    { st with s := st.s.removeDirPath (st.s.resolve path) }
  else st

/-- The cleanup block of the download_file exception handler: if a file
exists at the destination, remove it before the exception is re-raised. -/
def dl_cleanup (l : LocalFS) (destination : String) : LocalFS :=
  if l.localExists destination then l.removeFile destination else l

/-- SftpDownload.download_file (lines 343-380). Skips the transfer when the
destination already exists; creates the missing destination directory;
performs the byte copy; on a copy failure removes a partially written
destination file before re-raising; on success optionally deletes the remote
origin and prunes its now-empty parent directory, where failures are caught
and logged. -/
def download_file (path dest : String) (delete_origin : Bool) (st : DState) :
    DState × Option PyErr :=
  let dir_name := posix_dirname path
  let destination := dl_destination path dest
  let dest_dir := localpath_dirname destination
  if st.l.localExists destination then (st, none)
  else
    let l1 := if st.l.localExists dest_dir then st.l else st.l.addDir dest_dir
    let a := st.s.resolve path
    if st.s.getFailMidAt.contains a then
      ({ st with l := dl_cleanup (l1.addFile destination) destination },
       some (.ioErr ("get failed: " ++ a)))
    else if st.s.getFailAt.contains a || !(st.s.hasFile a) then
      ({ st with l := dl_cleanup l1 destination },
       some (.ioErr ("get failed: " ++ a)))
    else
      let st2 : DState := { st with l := l1.addFile destination, copies := st.copies + 1 }
      if delete_origin then
        if st2.s.removeFailAt.contains a then (st2, none)
        else
          let st3 : DState := { st2 with s := st2.s.removeFilePath a }
          (remove_dir st3 dir_name, none)
      else (st2, none)

/-- The remote path of an entry in download_entry: the unquoted URL path, or
dot when empty. -/
def entry_remote_path (e : Entry) : String :=
  let p := unquote (urlparse e.url).path
  if p = "" then "." else p

/-- SftpDownload.download_entry (lines 405-459). Destination template
rendering is an external collaborator modelled as returning the configured
path unchanged. Returns the updated state and the failure message attached to
the entry, if any; a missing remote path is only logged. -/
def download_entry (e : Entry) (cfg : DownloadConfig) (st : DState) :
    DState × Option String :=
  let path := entry_remote_path e
  let toDir := cfg.to_path
  if !(st.s.lexists path) then (st, none)
  else if st.s.isfile path then
    let source_file := posix_basename path
    let source_dir := posix_dirname path
    let st1 : DState := { st with s := st.s.chdir source_dir }
    match download_file source_file toDir cfg.delete_origin st1 with
    | (st2, some e2) =>
      (st2, some ("Failed to download file " ++ path ++ " (" ++ errStr e2 ++ ")"))
    | (st2, none) => (st2, none)
  else if st.s.isdir path then
    let base_path := posix_normpath (posix_join path "..")
    let dir_name := posix_basename path
    let st1 : DState := { st with s := st.s.chdir base_path }
    match walkOne (fun t : DState => t.s)
        (fun p t => download_file p toDir cfg.delete_origin t)
        (fun _ t => (t, none)) (fun _ t => (t, none))
        cfg.recursive (walkFuel st1.s) dir_name st1 with
    | (st2, some e2) =>
      (st2, some ("Failed to download directory " ++ path ++ " (" ++ errStr e2 ++ ")"))
    | (st2, none) =>
      if cfg.delete_origin then (remove_dir st2 path, none) else (st2, none)
  else (st, none)

/-- The outcome recorded for one entry by on_task_download: either the group
was skipped without any outcome (the continue branch for an underivable
identity), or the entry was failed because the group connection failed, or
download_entry ran and optionally failed the entry. -/
inductive DlOutcome where
  | dropped
  | connFailed (msg : String)
  | ran (failMsg : Option String)
deriving DecidableEq, Repr

/-- Connection fault oracle for the download run: the identities for which
sftp_connect exhausts its retries. -/
structure DlEnv where
  connFail : List ConnectionConfig
deriving DecidableEq, Repr

/-- The message with which every entry of a group is failed when the group
connection cannot be opened. -/
def dlConnFailedMsg (c : ConnectionConfig) : String :=
  "Failed to connect to " ++ (c.host.getD "None") ++ " (connection error)"

/-- Run download_entry over the entries of one connected group, in order. -/
def runGroupEntries (cfg : DownloadConfig) (es : List Entry) (st : DState) :
    DState × List (Entry × DlOutcome) :=
  match es with
  | [] => (st, [])
  | e :: rest =>
    let r1 := download_entry e cfg st
    let r2 := runGroupEntries cfg rest r1.1
    (r2.1, (e, .ran r1.2) :: r2.2)

/-- Process the groups produced by groupby: a group with no derivable identity
is skipped entirely; a group whose connection fails has every entry failed
with the connection message; otherwise every entry goes through
download_entry over one shared session. -/
def runGroups (cfg : DownloadConfig) (env : DlEnv)
    (gs : List (Option ConnectionConfig × List Entry)) (st : DState) :
    DState × List (Entry × DlOutcome) :=
  match gs with
  | [] => (st, [])
  | (none, es) :: rest =>
    let r := runGroups cfg env rest st
    (r.1, es.map (fun e => (e, DlOutcome.dropped)) ++ r.2)
  | (some c, es) :: rest =>
    if env.connFail.contains c then
      let r := runGroups cfg env rest st
      (r.1, es.map (fun e => (e, DlOutcome.connFailed (dlConnFailedMsg c))) ++ r.2)
    else
      let r1 := runGroupEntries cfg es st
      let r2 := runGroups cfg env rest r1.1
      (r2.1, r1.2 ++ r2.2)

/-- SftpDownload.on_task_download (lines 461-487): group the accepted entries
by connection identity and process each group. -/
def on_task_download (cfg : DownloadConfig) (env : DlEnv) (accepted : List Entry)
    (st : DState) : DState × List (Entry × DlOutcome) :=
  runGroups cfg env (groupByKey get_sftp_config accepted) st

/-! ## SftpList (lines 130-284) -/

/-- The sftp_list configuration after prepare_config. -/
structure ListConfig where
  host : String
  username : String
  password : Option String
  port : Nat
  files_only : Bool
  recursive : Bool
  get_size : Bool
  private_key : Option String
  private_key_pass : Option String
  dirs : List String
deriving DecidableEq, Repr

/-- sftp_prefix (lines 100-115): the URL prefix derived from the connection
configuration, with Python truthiness on the username, password and port. -/
def sftpPrefixStr (c : ListConfig) : String :=
  let pw := c.password.getD ""
  let login_str :=
    if c.username ≠ "" && pw ≠ "" then c.username ++ ":" ++ pw ++ "@"
    else if c.username ≠ "" then c.username ++ "@"
    else ""
  let port_str := if c.port ≠ 0 && c.port ≠ 22 then ":" ++ toString c.port else ""
  "sftp://" ++ login_str ++ c.host ++ port_str ++ "/"

/-- Join of the connection prefix with an absolute, percent-encoded path.
Modelled from the spec: location is a URL built by joining a
connection-derived prefix with the encoded server-normalized absolute path
(urljoin of the stdlib, restricted to the absolute-path case in use). -/
def urljoinModel (base rel : String) : String :=
  if startsWithL ['/'] rel.data then
    match breakOnL [':', '/', '/'] base.data with
    | some (sch, rest) =>
      let netloc := match breakOnL ['/'] rest with
        | some (n, _) => n
        | none => rest
      ⟨sch⟩ ++ "://" ++ (⟨netloc⟩ : String) ++ rel
    | none => rel
  else base ++ rel

/-- Server-side canonicalization performed by sftp.normalize. Modelled from
the spec: the server-normalized absolute form of the path, relative paths
being resolved against the session cwd. -/
def Sftp.normalizePath (s : Sftp) (p : String) : String :=
  posix_normpath (s.resolve p)

/-- An entry produced by the lister. -/
structure LEntry where
  title : String
  url : String
  content_size : Option Int
  private_key : Option String
  private_key_pass : Option String
deriving DecidableEq, Repr

/-- The state threaded through one on_task_input call: the session and the
accumulated entries. -/
structure LState where
  s : Sftp
  entries : List LEntry
deriving DecidableEq, Repr

/-- The node_size callback of dir_size: look up the lstat size of the visited
node and append it to the accumulator; an lstat failure propagates. -/
def node_size (st : Sftp × List Int) (f : String) : (Sftp × List Int) × Option PyErr :=
  match st.1.lstatSize f with
  | .ok sz => ((st.1, st.2 ++ [sz]), none)
  | .error er => (st, some er)

/-- dir_size (lines 223-235): walk the directory with node_size as the file,
directory and unknown callback alike (recursively), and sum the collected
sizes. -/
def dir_size (s : Sftp) (path : String) : Except PyErr Int :=
  match walkOne (fun t : Sftp × List Int => t.1)
      (fun p t => node_size t p) (fun p t => node_size t p) (fun p t => node_size t p)
      true (walkFuel s) path (s, []) with
  | ((_, sizes), none) => .ok (intSum sizes)
  | (_, some er) => .error er

/-- file_size (lines 217-221): lstat st_size of the node. -/
def file_size (s : Sftp) (path : String) : Except PyErr Int := s.lstatSize path

/-- handle_node (lines 237-262): skip directories when files_only; build the
entry URL from the normalized path (a normalization fault raises out of the
callback); compute the size when get_size, where a size failure is caught and
recorded as -1; attach private key metadata when configured. -/
def handle_node (cfg : ListConfig) (path : String) (is_dir : Bool) (st : LState) :
    LState × Option PyErr :=
  if is_dir && cfg.files_only then (st, none)
  else
    let a := st.s.resolve path
    match st.s.normFailAt.lookup a with
    | some isIO =>
      (st, some (if isIO then PyErr.ioErr ("normalize failed: " ++ a)
                 else PyErr.generic ("normalize failed: " ++ a)))
    | none =>
      let url := urljoinModel (sftpPrefixStr cfg) (quote (st.s.normalizePath path))
      let title := posix_basename path
      let size : Option Int :=
        if cfg.get_size then
          some (match (if is_dir then dir_size st.s path else file_size st.s path) with
                | .ok sz => sz
                | .error _ => -1)
        else none
      let keyOpt := if (cfg.private_key.getD "") ≠ "" then cfg.private_key else none
      let keyPassOpt :=
        if (cfg.private_key.getD "") ≠ "" && (cfg.private_key_pass.getD "") ≠ "" then
          cfg.private_key_pass
        else none
      let en : LEntry :=
        { title := title, url := url, content_size := size,
          private_key := keyOpt, private_key_pass := keyPassOpt }
      ({ st with entries := st.entries ++ [en] }, none)

/-- The per-root loop of on_task_input (lines 275-280): walk each root,
catching IOError per root and continuing; any other exception propagates. -/
def listRoots (cfg : ListConfig) (roots : List String) (st : LState) :
    LState × Option PyErr :=
  match roots with
  | [] => (st, none)
  | d :: ds =>
    match walkOne (fun t : LState => t.s)
        (fun p t => handle_node cfg p false t)
        (fun p t => handle_node cfg p true t)
        (fun _ t => (t, none))
        cfg.recursive (walkFuel st.s) d st with
    | (st1, some (.ioErr _)) => listRoots cfg ds st1
    | (st1, some er) => (st1, some er)
    | (st1, none) => listRoots cfg ds st1

deriving instance DecidableEq for Except

/-- Result of one on_task_input call: the produced entries or the propagated
exception, together with whether the session was left open (opened and not
closed) when the call ended. -/
structure ListRun where
  res : Except PyErr (List LEntry)
  leaked : Bool
deriving DecidableEq, Repr

/-- SftpList.on_task_input (lines 192-284): connect (a connection failure
raises PluginError before any session exists), walk every configured root,
then close the session. The close sits on the fall-through path only: an
exception other than a per-root IOError propagates before it. -/
def on_task_input (cfg : ListConfig) (connectFail : Bool) (s : Sftp) : ListRun :=
  if connectFail then
    { res := .error (.plugin ("Failed to connect to " ++ cfg.host)), leaked := false }
  else
    match listRoots cfg cfg.dirs { s := s, entries := [] } with
    | (st, none) => { res := .ok st.entries, leaked := false }
    | (_, some er) => { res := .error er, leaked := true }

/-- The spec-side comparator for C5. Modelled from the spec: the sum of the
sizes of the descendant FILE nodes only (no directory or unknown node
contributes). -/
def specDirSize (s : Sftp) (path : String) : Int :=
  let a := s.resolve path
  intSum (((s.rfiles.filter
    (fun pr => startsWithL (a.data ++ ['/']) pr.1.data && !(s.removedF.contains pr.1))).map
      Prod.snd))

/-! ## SftpUpload (lines 489-609) -/

/-- The sftp_upload configuration after prepare_config. -/
structure UpConfig where
  host : String
  username : String
  password : Option String
  port : Nat
  private_key : Option String
  private_key_pass : Option String
  to_path : Option String
  delete_origin : Bool
deriving DecidableEq, Repr

/-- The state threaded through an upload run. -/
structure UState where
  s : Sftp
  l : LocalFS
deriving DecidableEq, Repr

/-- Result of one handle_entry call: the updated state, the message the entry
was failed with (if fail was called), and the exception the call raised (if
it did not return normally). -/
structure UpStep where
  st : UState
  failMsg : Option String
  raised : Option PyErr
deriving DecidableEq, Repr

/-- SftpUpload.handle_entry (lines 543-593). Template rendering is an
external collaborator modelled as returning the configured path unchanged. A
missing local source is skipped with a warning; a failed makedirs or a
non-directory destination fails the entry; an IOError from put enters a
branch whose fail message interpolates two placeholders with a single
argument, which raises TypeError instead of failing the entry; a generic put
error fails the entry normally; delete_origin removes the local source after
a successful upload. -/
def handle_entry (e : Entry) (cfg : UpConfig) (st : UState) : UpStep :=
  let location := e.location
  let filename := localpath_basename location
  match cfg.to_path with
  | none =>
    -- remotepath.join(None, filename) raises TypeError in the source language
    { st := st, failMsg := none, raised := some .typeErr }
  | some toDir =>
    let destination := posix_join toDir filename
    if !(st.l.localExists location) then { st := st, failMsg := none, raised := none }
    else
      let mk_needed := !(st.s.lexists toDir)
      if mk_needed && st.s.mkdirFailAt.contains (st.s.resolve toDir) then
        { st := st,
          failMsg := some ("OSError: makedirs failed " ++ toDir), raised := none }
      else
        let s1 := if mk_needed then st.s.addDirPath (st.s.resolve toDir) else st.s
        let st1 : UState := { st with s := s1 }
        if !(st1.s.isdir toDir) then
          { st := st1, failMsg := some ("Not a directory: " ++ toDir), raised := none }
        else
          let a := st1.s.resolve destination
          if st1.s.putFailIOAt.contains a then
            match pyMod "Remote directory does not exist: %s (%s)" [toDir] with
            | .ok m => { st := st1, failMsg := some m, raised := none }
            | .error te => { st := st1, failMsg := none, raised := some te }
          else if st1.s.putFailGenAt.contains a then
            match pyMod "Failed to upload %s (%s)" [location, "put failed: " ++ a] with
            | .ok m => { st := st1, failMsg := some m, raised := none }
            | .error te => { st := st1, failMsg := none, raised := some te }
          else
            let st2 : UState := { st1 with s := st1.s.addFilePath a }
            if cfg.delete_origin then
              { st := { st2 with l := st2.l.removeFile location },
                failMsg := none, raised := none }
            else { st := st2, failMsg := none, raised := none }

/-- The outcome recorded for one entry by on_task_output: either handle_entry
ran (with the fail message it recorded, if any), or the entry was failed by
the connection-failed fallback branch of the loop. -/
inductive UpOutcome where
  | handled (failMsg : Option String)
  | connBranch (msg : String)
deriving DecidableEq, Repr

/-- The message of the fallback branch:
SFTP connection failed; failing entry: entry. -/
def connFailMsg (e : Entry) : String :=
  "SFTP connection failed; failing entry: " ++ e.url

/-- Result of one on_task_output call. -/
structure UpRun where
  st : UState
  outcomes : List (Entry × UpOutcome)
  raised : Option PyErr
deriving DecidableEq, Repr

/-- The entry loop of on_task_output (lines 603-609): for each accepted
entry, if the session value is truthy run handle_entry (an exception from it
aborts the loop), otherwise fail the entry with the connection-failed
message. -/
def upLoop (cfg : UpConfig) (sftpOk : Bool) (es : List Entry) (st : UState) : UpRun :=
  match es with
  | [] => { st := st, outcomes := [], raised := none }
  | e :: rest =>
    if sftpOk then
      let r := handle_entry e cfg st
      match r.raised with
      | some er => { st := r.st, outcomes := [(e, .handled r.failMsg)], raised := some er }
      | none =>
        let k := upLoop cfg sftpOk rest r.st
        { st := k.st, outcomes := (e, .handled r.failMsg) :: k.outcomes, raised := k.raised }
    else
      let k := upLoop cfg sftpOk rest st
      { st := k.st, outcomes := (e, .connBranch (connFailMsg e)) :: k.outcomes,
        raised := k.raised }

/-- SftpUpload.on_task_output (lines 595-609): sftp_from_config raises
PluginError when the connection fails, which aborts the run before any entry
is seen; otherwise the session object is truthy and every entry goes through
handle_entry. -/
def on_task_output (cfg : UpConfig) (connectFail : Bool) (accepted : List Entry)
    (st : UState) : UpRun :=
  if connectFail then
    { st := st, outcomes := [],
      raised := some (.plugin ("Failed to connect to " ++ cfg.host)) }
  else upLoop cfg true accepted st

/-- Boolean success test for Except values. -/
def isOkE {ε α : Type} : Except ε α → Bool
  | .ok _ => true
  | .error _ => false

/-- Did on_task_download record a failure outcome for the entry? -/
def failedOutcome : DlOutcome → Bool
  | .connFailed _ => true
  | .ran (some _) => true
  | _ => false

/-! ## Concrete fixtures used by the witnesses and counterexamples -/

/-- A session with no faults, rooted at /, with the single remote file
/src/f.txt of size 5 inside directory /src. -/
def sfOneFile : Sftp :=
  ⟨"/", [("/src/f.txt", 5)], [("/src", 0)], [], [], [], [], [], [], [], [], [], [], []⟩

/-- The same session with a mid-copy fault on /src/f.txt. -/
def sfMidFail : Sftp := { sfOneFile with getFailMidAt := ["/src/f.txt"] }

/-- An empty local file system. -/
def lfEmpty : LocalFS := ⟨[], []⟩

/-- Entries and identities for the grouping example: identities A, A, B, A. -/
def entA1 : Entry := ⟨"sftp://u@h1/a", "", none, none⟩

/-- Second entry with identity A. -/
def entA2 : Entry := ⟨"sftp://u@h1/b", "", none, none⟩

/-- Entry with identity B. -/
def entB3 : Entry := ⟨"sftp://u@h2/c", "", none, none⟩

/-- Fourth entry, again with identity A. -/
def entA4 : Entry := ⟨"sftp://u@h1/d", "", none, none⟩

/-- Identity A of the grouping example. -/
def idA : ConnectionConfig := ⟨some "h1", 22, some "u", none, none, none⟩

/-- Identity B of the grouping example. -/
def idB : ConnectionConfig := ⟨some "h2", 22, some "u", none, none, none⟩

/-- Remote tree for the size claims: directory /d holding files of sizes 10,
20 and 30, a subdirectory /d/sub whose own lstat size is 5, and an
unclassifiable node /d/u of lstat size 7. -/
def sfSizeTree : Sftp :=
  ⟨"/", [("/d/x", 10), ("/d/y", 20), ("/d/z", 30)], [("/d", 0), ("/d/sub", 5)],
   [("/d/u", 7)], [], [], [], [], [], [], [], [], [], []⟩

/-- The same directory with file children only. -/
def sfSizeFlat : Sftp :=
  ⟨"/", [("/d/x", 10), ("/d/y", 20), ("/d/z", 30)], [("/d", 0)],
   [], [], [], [], [], [], [], [], [], [], []⟩

/-- An empty directory whose own lstat size is 4096. -/
def sfSizeEmpty : Sftp :=
  ⟨"/", [], [("/d", 4096)], [], [], [], [], [], [], [], [], [], [], []⟩

/-- Lister configuration over the single root /d, not files-only, without
size computation. -/
def cfgL6 : ListConfig := ⟨"h", "u", none, 22, false, true, false, none, none, ["/d"]⟩

/-- A session whose normalize call on /d/a raises an error that is not an
IOError. -/
def sfL6 : Sftp :=
  ⟨"/", [("/d/a", 10)], [("/d", 0)], [], [], [], [], [], [], [], [], [], [],
   [("/d/a", false)]⟩

/-- The same session where the normalize fault is an IOError instead. -/
def sfL6io : Sftp := { sfL6 with normFailAt := [("/d/a", true)] }

/-- A download entry whose remote source path /missing.txt does not exist. -/
def ent7 : Entry := ⟨"sftp://h/missing.txt", "", none, none⟩

/-- Download configuration used by the download fixtures. -/
def dcfg7 : DownloadConfig := ⟨"/to", true, false⟩

/-- State for the missing-path example. -/
def st7 : DState := ⟨sfOneFile, lfEmpty, 0⟩

/-- A work item whose source URL scheme is not sftp. -/
def entBad : Entry := ⟨"http://h/x", "", none, none⟩

/-- Download environment with no connection faults. -/
def env8 : DlEnv := ⟨[]⟩

/-- Upload entry with local source /l/f.bin. -/
def ent9 : Entry := ⟨"", "/l/f.bin", none, none⟩

/-- Upload configuration targeting remote directory /r. -/
def upCfg9 : UpConfig := ⟨"h", "u", none, 22, none, none, some "/r", false⟩

/-- Upload state whose put on /r/f.bin raises IOError. -/
def usIO9 : UState :=
  ⟨⟨"/", [], [("/r", 0)], [], [], [], [], [], [], ["/r/f.bin"], [], [], [], []⟩,
   ⟨["/l/f.bin"], []⟩⟩

/-- Upload state whose put on /r/f.bin raises a generic error. -/
def usGen9 : UState :=
  ⟨⟨"/", [], [("/r", 0)], [], [], [], [], [], [], [], ["/r/f.bin"], [], [], []⟩,
   ⟨["/l/f.bin"], []⟩⟩

/-- Download state positioned in /src whose destination file already exists
locally. -/
def stSkip : DState := ⟨sfOneFile.chdir "/src", ⟨["/to/f.txt"], []⟩, 0⟩

/-- Download state positioned in /src whose get fails after a half-written
destination. -/
def stMid : DState := ⟨sfMidFail.chdir "/src", lfEmpty, 0⟩

/-! ## Claim C1 -/

/-- Claim C1, counterexample: with every underlying open failing, the trace of
sftp_connect is not the claimed two waits of 15 and 20 over 3 attempts. -/
theorem C1_counterexample :
    ¬ ((sftp_connect_trace (fun _ => false)).waits = [15, 20]
       ∧ (sftp_connect_trace (fun _ => false)).attempts = 3) := by
  decide

/-- Claim C1 as amended: with budget CONNECT_TRIES = 3, initial backoff 15 and
step 5, a connect in which every underlying open fails waits 15, 20 and then
25 between 4 attempts, and then raises the connection error without a further
wait. -/
theorem C1_amended_retry_growth :
    sftp_connect_trace (fun _ => false)
      = { waits := [15, 20, 25], attempts := 4, ok := false } := by
  decide

/-! ## Claim C5 -/

/-- Claim C5, counterexample: dir_size sums the lstat sizes of every
descendant node, so the directory /d with files 10, 20, 30, a subdirectory of
lstat size 5 and an unknown node of lstat size 7 yields 72, not the 60 that
summing only descendant file sizes (specDirSize) would give. -/
theorem C5_counterexample :
    dir_size sfSizeTree "/d" = .ok 72 ∧ specDirSize sfSizeTree "/d" = 60 := by
  decide

/-- Claim C5 as amended: with computeSize enabled the size recorded for a
directory is the sum of the lstat sizes of all its descendant nodes, files,
directories and unknown nodes alike; when every descendant is a file of sizes
10, 20, 30 this is 60, and an empty directory yields 0. -/
theorem C5_amended_dir_size :
    dir_size sfSizeFlat "/d" = .ok 60
    ∧ dir_size sfSizeEmpty "/d" = .ok 0
    ∧ dir_size sfSizeTree "/d" = .ok ((10 + 20 + 30) + 5 + 7) := by
  decide

/-! ## Claim C7 -/

/-- Claim C7, counterexample: for the record whose remote source path does not
exist, download_entry returns with the state unchanged and with no failure
attached to the record: the record receives neither a PathNotFoundError nor
any other outcome. -/
theorem C7_counterexample :
    download_entry ent7 dcfg7 st7 = (st7, none) := by
  decide

/-- Claim C7 as amended: a download record whose remote source path does not
exist is skipped with only a logged error: download_entry returns the state
unchanged and attaches no failure to the record, so the record is silently
dropped rather than failed with PathNotFoundError. -/
theorem C7_amended_missing_path (e : Entry) (cfg : DownloadConfig) (st : DState)
    (h : st.s.lexists (entry_remote_path e) = false) :
    download_entry e cfg st = (st, none) := by
  unfold download_entry
  simp [h]

/-- Witness for C7_amended_missing_path at the concrete missing-path
fixture. -/
theorem C7_amended_missing_path_witness :
    st7.s.lexists (entry_remote_path ent7) = false
    ∧ download_entry ent7 dcfg7 st7 = (st7, none) :=
  ⟨by decide, C7_amended_missing_path ent7 dcfg7 st7 (by decide)⟩

/-! ## Claim C9 -/

/-- Claim C9, divergence of the code at the failing input: when put raises
IOError, the message interpolation with two placeholders and one argument
raises TypeError, so handle_entry raises instead of failing the record; when
put raises a generic error the record is failed normally and handle_entry
returns. -/
theorem C9_put_error_divergence :
    (handle_entry ent9 upCfg9 usIO9).raised = some PyErr.typeErr
    ∧ (handle_entry ent9 upCfg9 usIO9).failMsg = none
    ∧ (handle_entry ent9 upCfg9 usGen9).raised = none
    ∧ (handle_entry ent9 upCfg9 usGen9).failMsg
        = some "Failed to upload /l/f.bin (put failed: /r/f.bin)" := by
  decide

/-! ## Helper lemmas about download_file -/

/-- A value is never a member of the list from which every occurrence of it
was filtered out. -/
lemma not_mem_filter_ne (l : List String) (d : String) :
    d ∉ l.filter (fun q => !(q == d)) := by
  simp

/-- The destination file exists after addFile. -/
lemma localExists_addFile (l : LocalFS) (p : String) :
    (l.addFile p).localExists p = true := by
  simp [LocalFS.addFile, LocalFS.localExists]

/-- After the exception-handler cleanup no file sits at the destination. -/
lemma dl_cleanup_no_file (l : LocalFS) (d : String) :
    (dl_cleanup l d).files.contains d = false := by
  unfold dl_cleanup
  by_cases h : l.localExists d = true
  · simp [h, LocalFS.removeFile]
  · have h2 := h
    simp [LocalFS.localExists] at h2
    simp [h, h2.1]

/-- Propositional form of dl_cleanup_no_file. -/
lemma not_mem_dl_cleanup (l : LocalFS) (d : String) : d ∉ (dl_cleanup l d).files := by
  have h := dl_cleanup_no_file l d
  simpa using h

/-- remove_dir only touches the remote session, never the local files. -/
lemma remove_dir_l (st : DState) (p : String) : (remove_dir st p).l = st.l := by
  unfold remove_dir; split <;> rfl

/-- remove_dir does not change the copy counter. -/
lemma remove_dir_copies (st : DState) (p : String) : (remove_dir st p).copies = st.copies := by
  unfold remove_dir; split <;> rfl

/-- When the destination already exists, download_file returns the state
unchanged and reports no error. -/
lemma download_file_skip (p d : String) (del : Bool) (st : DState)
    (h : st.l.localExists (dl_destination p d) = true) :
    download_file p d del st = (st, none) := by
  unfold download_file
  simp [h]

/-- Each download_file call either leaves the copy counter unchanged, or
increments it exactly once while leaving the destination existing locally. -/
lemma download_file_copies (p d : String) (del : Bool) (st : DState) :
    (download_file p d del st).1.copies = st.copies
    ∨ ((download_file p d del st).1.copies = st.copies + 1
       ∧ (download_file p d del st).1.l.localExists (dl_destination p d) = true) := by
  unfold download_file
  by_cases h1 : st.l.localExists (dl_destination p d) = true
  · simp [h1]
  · by_cases h2 : st.s.resolve p ∈ st.s.getFailMidAt
    · simp [h1, h2]
    · by_cases h3 : st.s.resolve p ∈ st.s.getFailAt ∨ st.s.hasFile (st.s.resolve p) = false
      · simp [h1, h2, h3]
      · by_cases hdel : del = true
        · by_cases h4 : st.s.resolve p ∈ st.s.removeFailAt
          · simp [h1, h2, h3, hdel, h4, localExists_addFile]
          · simp [h1, h2, h3, hdel, h4, remove_dir_l, remove_dir_copies, localExists_addFile]
        · simp [h1, h2, h3, hdel, localExists_addFile]

/-! ## Claim C2 -/

/-- Claim C2: when the computed local destination path already exists,
download_file is an idempotent no-op: it returns success with the state
completely unchanged (no byte copy, no local change, no remote deletion even
with delete_origin set); consequently two invocations for the same
source/destination pair perform at most one byte copy in total. -/
theorem C2_idempotent_download (p d : String) (del : Bool) (st : DState) :
    (st.l.localExists (dl_destination p d) = true → download_file p d del st = (st, none))
    ∧ (download_file p d del (download_file p d del st).1).1.copies ≤ st.copies + 1 := by
  constructor
  · intro h
    exact download_file_skip p d del st h
  · rcases download_file_copies p d del st with h | ⟨hc, hl⟩
    · rcases download_file_copies p d del (download_file p d del st).1 with h2 | ⟨hc2, _⟩
      · omega
      · omega
    · rw [download_file_skip p d del _ hl]
      simp [hc]

/-- Witness for C2_idempotent_download at a concrete state whose destination
file already exists, with delete_origin set. -/
theorem C2_idempotent_download_witness :
    stSkip.l.localExists (dl_destination "f.txt" "/to") = true
    ∧ download_file "f.txt" "/to" true stSkip = (stSkip, none) :=
  ⟨by decide, (C2_idempotent_download "f.txt" "/to" true stSkip).1 (by decide)⟩

/-! ## Claim C3 -/

/-- Claim C3: whenever download_file propagates a transfer failure, no file is
left at the computed destination path: a partially written destination file is
deleted before the failure reaches the caller. -/
theorem C3_partial_cleanup (p d : String) (del : Bool) (st : DState) (er : PyErr)
    (h : (download_file p d del st).2 = some er) :
    (download_file p d del st).1.l.files.contains (dl_destination p d) = false := by
  unfold download_file at h ⊢
  by_cases h1 : st.l.localExists (dl_destination p d) = true
  · simp [h1] at h
  · by_cases h2 : st.s.resolve p ∈ st.s.getFailMidAt
    · simp [h1, h2, not_mem_dl_cleanup]
    · by_cases h3 : st.s.resolve p ∈ st.s.getFailAt ∨ st.s.hasFile (st.s.resolve p) = false
      · simp [h1, h2, h3, not_mem_dl_cleanup]
      · by_cases hdel : del = true
        · by_cases h4 : st.s.resolve p ∈ st.s.removeFailAt
          · simp [h1, h2, h3, hdel, h4] at h
          · simp [h1, h2, h3, hdel, h4] at h
        · simp [h1, h2, h3, hdel] at h

/-- Witness for C3_partial_cleanup at a concrete mid-copy failure. -/
theorem C3_partial_cleanup_witness :
    (download_file "f.txt" "/to" false stMid).2 = some (PyErr.ioErr "get failed: /src/f.txt")
    ∧ (download_file "f.txt" "/to" false stMid).1.l.files.contains
        (dl_destination "f.txt" "/to") = false :=
  ⟨by decide,
   C3_partial_cleanup "f.txt" "/to" false stMid (PyErr.ioErr "get failed: /src/f.txt")
     (by decide)⟩

/-! ## Claim C4 -/

/-- Grouping keeps every input item: flattening the groups reproduces the
input list. -/
lemma groupByKey_flat {α β : Type} [DecidableEq β] (k : α → β) (l : List α) :
    flatList ((groupByKey k l).map Prod.snd) = l := by
  induction l with
  | nil => rfl
  | cons x xs ih =>
    simp only [groupByKey]
    cases hg : groupByKey k xs with
    | nil =>
      rw [hg] at ih
      simp only [List.map_nil, flatList] at ih
      subst ih
      rfl
    | cons p rest =>
      obtain ⟨kk, g⟩ := p
      rw [hg] at ih
      by_cases hk : k x = kk
      · simp only [hk, if_true, List.map_cons, flatList] at ih ⊢
        simp [← ih]
      · simp only [hk, if_false, List.map_cons, flatList] at ih ⊢
        simp [← ih]

/-- Every member of a group carries the key of that group. -/
lemma groupByKey_homog {α β : Type} [DecidableEq β] (k : α → β) (l : List α) :
    ∀ p ∈ groupByKey k l, ∀ x ∈ p.2, k x = p.1 := by
  induction l with
  | nil => intro p hp; simp [groupByKey] at hp
  | cons x xs ih =>
    intro p hp y hy
    simp only [groupByKey] at hp
    cases hg : groupByKey k xs with
    | nil =>
      rw [hg] at hp
      simp at hp
      subst hp
      simp at hy
      subst hy
      rfl
    | cons q rest =>
      obtain ⟨kk, g⟩ := q
      rw [hg] at hp
      by_cases hk : k x = kk
      · simp only [hk, if_true] at hp
        rcases List.mem_cons.mp hp with h1 | h2
        · subst h1
          rcases List.mem_cons.mp hy with h3 | h4
          · subst h3; exact hk
          · exact ih (kk, g) (by rw [hg]; exact List.mem_cons_self _ _) y h4
        · exact ih p (by rw [hg]; exact List.mem_cons_of_mem _ h2) y hy
      · simp only [hk, if_false] at hp
        rcases List.mem_cons.mp hp with h1 | h2
        · subst h1
          simp at hy
          subst hy
          rfl
        · exact ih p (by rw [hg]; exact h2) y hy

/-- Adjacent groups always carry different keys: runs are never split. -/
lemma groupByKey_chain {α β : Type} [DecidableEq β] (k : α → β) (l : List α) :
    List.Chain' (fun a b : β × List α => a.1 ≠ b.1) (groupByKey k l) := by
  induction l with
  | nil => simp [groupByKey]
  | cons x xs ih =>
    simp only [groupByKey]
    cases hg : groupByKey k xs with
    | nil => simp
    | cons q rest =>
      obtain ⟨kk, g⟩ := q
      rw [hg] at ih
      by_cases hk : k x = kk
      · simp only [hk, if_true]
        rcases List.chain'_cons'.mp ih with ⟨h1, h2⟩
        exact List.chain'_cons'.mpr ⟨h1, h2⟩
      · simp only [hk, if_false]
        refine List.chain'_cons'.mpr ⟨?_, ih⟩
        intro b hb
        simp at hb
        subst hb
        simpa using hk

/-- Claim C4: grouping by connection identity is a stable grouping of only
consecutive structurally equal identities: flattening the groups reproduces
the input in order, every group is homogeneous in its key, adjacent groups
carry different keys (so non-adjacent runs are never merged), and the
concrete identities A, A, B, A yield exactly the three groups A-run, B-run,
A-run. -/
theorem C4_consecutive_grouping :
    (∀ l : List Entry, flatList ((groupByKey get_sftp_config l).map Prod.snd) = l)
    ∧ (∀ l : List Entry, ∀ p ∈ groupByKey get_sftp_config l, ∀ x ∈ p.2,
        get_sftp_config x = p.1)
    ∧ (∀ l : List Entry,
        List.Chain' (fun a b : Option ConnectionConfig × List Entry => a.1 ≠ b.1)
          (groupByKey get_sftp_config l))
    ∧ groupByKey get_sftp_config [entA1, entA2, entB3, entA4]
        = [(some idA, [entA1, entA2]), (some idB, [entB3]), (some idA, [entA4])] :=
  ⟨fun l => groupByKey_flat _ l, fun l => groupByKey_homog _ l,
   fun l => groupByKey_chain _ l, by decide⟩

/-- Witness for C4_consecutive_grouping: the homogeneity component applied to
the concrete first group of the A, A, B, A example. -/
theorem C4_consecutive_grouping_witness :
    (some idA, [entA1, entA2]) ∈ groupByKey get_sftp_config [entA1, entA2, entB3, entA4]
    ∧ entA1 ∈ [entA1, entA2]
    ∧ get_sftp_config entA1 = some idA :=
  ⟨by decide, by decide,
   C4_consecutive_grouping.2.1 [entA1, entA2, entB3, entA4] (some idA, [entA1, entA2])
     (by decide) entA1 (by decide)⟩

/-! ## Claim C6 -/

/-- Claim C6, counterexample: a record-building error that is not an IOError
(here a failing normalize call) propagates out of on_task_input before the
close call, leaving the session open: the session is not closed on every exit
path. -/
theorem C6_counterexample :
    (on_task_input cfgL6 false sfL6).leaked = true
    ∧ (on_task_input cfgL6 false sfL6).res
        = .error (.generic "normalize failed: /d/a") := by
  decide

/-- Claim C6 as amended: the session is closed whenever on_task_input returns
normally, and per-root IOErrors are caught so they still reach the close; but
an exception of any other kind raised during traversal or record building
propagates before the close and leaves the session open. -/
theorem C6_session_close (cfg : ListConfig) (connectFail : Bool) (s : Sftp)
    (h : isOkE (on_task_input cfg connectFail s).res = true) :
    (on_task_input cfg connectFail s).leaked = false := by
  unfold on_task_input at h ⊢
  by_cases hc : connectFail = true
  · simp [hc, isOkE] at h
  · simp only [hc, if_false] at h ⊢
    rcases hr : listRoots cfg cfg.dirs ⟨s, []⟩ with ⟨st, e⟩
    cases e with
    | none => simp
    | some er =>
      rw [hr] at h
      simp [isOkE] at h

/-- Witness for C6_session_close: the same walk with the fault downgraded to
an IOError returns normally and the session is closed. -/
theorem C6_session_close_witness :
    isOkE (on_task_input cfgL6 false sfL6io).res = true
    ∧ (on_task_input cfgL6 false sfL6io).leaked = false :=
  ⟨by decide, C6_session_close cfgL6 false sfL6io (by decide)⟩

/-! ## Claim C8 -/

/-- Claim C8, counterexample: the work item with a non-sftp source URL is
skipped by the continue branch with no outcome whatsoever; it is not reported
as failed. -/
theorem C8_counterexample :
    (on_task_download dcfg7 env8 [entBad] st7).2 = [(entBad, DlOutcome.dropped)]
    ∧ ((on_task_download dcfg7 env8 [entBad] st7).2.map (fun pr => failedOutcome pr.2))
        = [false] := by
  decide

/-- Mapping first projections over constant-second pairs is the identity. -/
lemma map_fst_comp_pair {α γ : Type} (c : γ) (es : List α) :
    List.map (Prod.fst ∘ fun e => (e, c)) es = es := by
  induction es with
  | nil => rfl
  | cons e rest ih => simp only [List.map_cons, ih]; rfl

/-- runGroupEntries reports exactly the entries of the group, in order. -/
lemma runGroupEntries_map_fst (cfg : DownloadConfig) (es : List Entry) (st : DState) :
    (runGroupEntries cfg es st).2.map Prod.fst = es := by
  induction es generalizing st with
  | nil => rfl
  | cons e rest ih => simp [runGroupEntries, ih]

/-- Every outcome recorded by runGroupEntries is a ran outcome for a group
member. -/
lemma runGroupEntries_outcomes (cfg : DownloadConfig) (es : List Entry) (st : DState) :
    ∀ pr ∈ (runGroupEntries cfg es st).2, pr.1 ∈ es ∧ ∃ r, pr.2 = DlOutcome.ran r := by
  induction es generalizing st with
  | nil => intro pr hpr; simp [runGroupEntries] at hpr
  | cons e rest ih =>
    intro pr hpr
    simp only [runGroupEntries] at hpr
    rcases List.mem_cons.mp hpr with h1 | h2
    · subst h1
      exact ⟨List.mem_cons_self _ _, _, rfl⟩
    · rcases ih _ pr h2 with ⟨ha, hb⟩
      exact ⟨List.mem_cons_of_mem _ ha, hb⟩

/-- The outcome list of runGroups covers exactly the entries of the groups. -/
lemma runGroups_map_fst (cfg : DownloadConfig) (env : DlEnv)
    (gs : List (Option ConnectionConfig × List Entry)) (st : DState) :
    (runGroups cfg env gs st).2.map Prod.fst = flatList (gs.map Prod.snd) := by
  induction gs generalizing st with
  | nil => rfl
  | cons gp rest ih =>
    obtain ⟨kk, es⟩ := gp
    cases kk with
    | none => simp [runGroups, flatList, ih, map_fst_comp_pair]
    | some c =>
      by_cases hc : c ∈ env.connFail
      · simp [runGroups, hc, flatList, ih, map_fst_comp_pair]
      · simp [runGroups, hc, flatList, ih, runGroupEntries_map_fst]

/-- Over homogeneous groups, an entry receives the dropped non-outcome
exactly when its identity is not derivable. -/
lemma runGroups_dropped_iff (cfg : DownloadConfig) (env : DlEnv)
    (gs : List (Option ConnectionConfig × List Entry)) (st : DState)
    (H : ∀ g ∈ gs, ∀ x ∈ g.2, get_sftp_config x = g.1) :
    ∀ pr ∈ (runGroups cfg env gs st).2,
      (get_sftp_config pr.1 = none ↔ pr.2 = DlOutcome.dropped) := by
  induction gs generalizing st with
  | nil => intro pr hpr; simp [runGroups] at hpr
  | cons gp rest ih =>
    obtain ⟨kk, es⟩ := gp
    have Hhd : ∀ x ∈ es, get_sftp_config x = kk :=
      fun x hx => H (kk, es) (List.mem_cons_self _ _) x hx
    have Htl : ∀ g ∈ rest, ∀ x ∈ g.2, get_sftp_config x = g.1 :=
      fun g hg => H g (List.mem_cons_of_mem _ hg)
    intro pr hpr
    cases kk with
    | none =>
      simp only [runGroups] at hpr
      rcases List.mem_append.mp hpr with h1 | h2
      · rcases List.mem_map.mp h1 with ⟨e, he, heq⟩
        subst heq
        simpa using Hhd e he
      · exact ih _ Htl pr h2
    | some c =>
      by_cases hc : c ∈ env.connFail
      · simp only [runGroups] at hpr
        rw [if_pos (by simpa using hc)] at hpr
        rcases List.mem_append.mp hpr with h1 | h2
        · rcases List.mem_map.mp h1 with ⟨e, he, heq⟩
          subst heq
          constructor
          · intro hno
            rw [Hhd e he] at hno
            simp at hno
          · intro hd
            simp at hd
        · exact ih _ Htl pr h2
      · simp only [runGroups] at hpr
        rw [if_neg (by simpa using hc)] at hpr
        rcases List.mem_append.mp hpr with h1 | h2
        · rcases runGroupEntries_outcomes cfg es st pr h1 with ⟨ha, r, hb⟩
          constructor
          · intro hno
            rw [Hhd pr.1 ha] at hno
            simp at hno
          · intro hd
            rw [hb] at hd
            simp at hd
        · exact ih _ Htl pr h2

/-- Claim C8 as amended: every accepted entry appears exactly once in the
outcome list in order, and an entry whose connection identity cannot be
derived is excluded from processing by the continue branch and receives no
outcome at all (neither success nor failure), rather than being failed
immediately. -/
theorem C8_excluded_items (cfg : DownloadConfig) (env : DlEnv) (accepted : List Entry)
    (st : DState) :
    ((on_task_download cfg env accepted st).2.map Prod.fst = accepted)
    ∧ (∀ pr ∈ (on_task_download cfg env accepted st).2,
        (get_sftp_config pr.1 = none ↔ pr.2 = DlOutcome.dropped)) := by
  constructor
  · rw [on_task_download, runGroups_map_fst, groupByKey_flat]
  · intro pr hpr
    exact runGroups_dropped_iff cfg env _ st (groupByKey_homog _ _) pr hpr

/-- Witness for C8_excluded_items at the concrete non-sftp entry. -/
theorem C8_excluded_items_witness :
    ((on_task_download dcfg7 env8 [entBad] st7).2.map Prod.fst = [entBad])
    ∧ (entBad, DlOutcome.dropped) ∈ (on_task_download dcfg7 env8 [entBad] st7).2
    ∧ (get_sftp_config entBad = none ↔ DlOutcome.dropped = DlOutcome.dropped) :=
  ⟨(C8_excluded_items dcfg7 env8 [entBad] st7).1, by decide,
   (C8_excluded_items dcfg7 env8 [entBad] st7).2 (entBad, DlOutcome.dropped) (by decide)⟩

/-! ## Claim C10 -/

/-- With a truthy session value, every outcome of the upload loop comes from
handle_entry. -/
lemma upLoop_true_handled (cfg : UpConfig) (es : List Entry) (st : UState) :
    ∀ pr ∈ (upLoop cfg true es st).outcomes, ∃ fm, pr.2 = UpOutcome.handled fm := by
  induction es generalizing st with
  | nil => intro pr hpr; simp [upLoop] at hpr
  | cons e rest ih =>
    intro pr hpr
    simp only [upLoop, if_true] at hpr
    rcases hre : (handle_entry e cfg st).raised with _ | er
    · rw [hre] at hpr
      rcases List.mem_cons.mp hpr with h1 | h2
      · subst h1; exact ⟨_, rfl⟩
      · exact ih _ pr h2
    · rw [hre] at hpr
      rcases List.mem_cons.mp hpr with h1 | h2
      · subst h1; exact ⟨_, rfl⟩
      · simp at h2

/-- Claim C10: a connection failure raises PluginError inside sftp_from_config
and aborts the upload run before any record is processed (no outcomes are
recorded), and on a successful connection the per-record fallback branch that
fails entries with the connection-failed message is unreachable: no record is
ever failed with that message. -/
theorem C10_conn_branch_unreachable (cfg : UpConfig) (connectFail : Bool)
    (accepted : List Entry) (st : UState) :
    (connectFail = true →
      (on_task_output cfg connectFail accepted st).outcomes = []
      ∧ (on_task_output cfg connectFail accepted st).raised
          = some (PyErr.plugin ("Failed to connect to " ++ cfg.host)))
    ∧ (∀ pr ∈ (on_task_output cfg connectFail accepted st).outcomes,
        ∀ m, pr.2 ≠ UpOutcome.connBranch m) := by
  constructor
  · intro h
    constructor
    · simp [on_task_output, h]
    · simp [on_task_output, h]
  · intro pr hpr m
    by_cases hc : connectFail = true
    · simp [on_task_output, hc] at hpr
    · simp only [on_task_output, hc, if_false] at hpr
      rcases upLoop_true_handled cfg accepted st pr hpr with ⟨fm, hfm⟩
      rw [hfm]
      simp

/-- Witness for C10_conn_branch_unreachable: a failed connection yields an
aborted run with no outcomes, and a concrete recorded outcome of a successful
run is not the connection-failed branch. -/
theorem C10_conn_branch_unreachable_witness :
    ((on_task_output upCfg9 true [ent9] usIO9).outcomes = []
     ∧ (on_task_output upCfg9 true [ent9] usIO9).raised
         = some (PyErr.plugin ("Failed to connect to " ++ upCfg9.host)))
    ∧ (ent9, UpOutcome.handled (some "Failed to upload /l/f.bin (put failed: /r/f.bin)")).2
        ≠ UpOutcome.connBranch "generic" :=
  ⟨(C10_conn_branch_unreachable upCfg9 true [ent9] usIO9).1 rfl,
   (C10_conn_branch_unreachable upCfg9 false [ent9] usGen9).2
     (ent9, UpOutcome.handled (some "Failed to upload /l/f.bin (put failed: /r/f.bin)"))
     (by decide) "generic"⟩

end SftpSpec
